import Mathlib

/-! Shallow embedding of the BESS ROI calculator's core computation:
the energy-balance / battery-dispatch pipeline of src/app.py (lines 52-77)
and src/src/main.py (lines 84-121), and the cost / arbitrage / waiting-cost
functions of src/src/analytics.py. Real arithmetic is modelled with exact
rationals; a pandas Series indexed by hours 0..23 becomes a function
Fin 24 → ℚ, and an hour-labelled frame becomes an association list. -/

namespace BESS

/-- Python's two-decimal rounding (round half to even) over exact rationals:
embeds the round(x, 2) calls of src/src/analytics.py. -/
def round2 (q : ℚ) : ℚ :=
  let s := q * 100
  let f : ℤ := ⌊s⌋
  let r : ℚ := s - f
  let n : ℤ :=
    if r < 1 / 2 then f
    else if 1 / 2 < r then f + 1
    else if f % 2 = 0 then f else f + 1
  (n : ℚ) / 100

/-- app.py line 58 / main.py line 89: consumption.clip(upper=pv_generation). -/
def self_consumed (consumption pv_generation : Fin 24 → ℚ) : Fin 24 → ℚ :=
  fun h => min (consumption h) (pv_generation h)

/-- app.py line 59 / main.py line 90: consumption - self_consumed. -/
def remaining_consumption (consumption pv_generation : Fin 24 → ℚ) : Fin 24 → ℚ :=
  fun h => consumption h - self_consumed consumption pv_generation h

/-- app.py line 60 / main.py line 91: pv_generation - self_consumed. -/
def pv_excess (consumption pv_generation : Fin 24 → ℚ) : Fin 24 → ℚ :=
  fun h => pv_generation h - self_consumed consumption pv_generation h

/-- app.py line 62: min(pv_excess.sum() * EFFICIENCY, battery_kwh). -/
def battery_charge_from_pv (consumption pv_generation : Fin 24 → ℚ)
    (efficiency battery_kwh : ℚ) : ℚ :=
  min ((∑ h, pv_excess consumption pv_generation h) * efficiency) battery_kwh

/-- main.py line 94: min(pv_excess.sum(), battery_kwh) — this variant applies
no efficiency factor. -/
def battery_charge_from_pv_main (consumption pv_generation : Fin 24 → ℚ)
    (battery_kwh : ℚ) : ℚ :=
  min (∑ h, pv_excess consumption pv_generation h) battery_kwh

/-- app.py line 65 / main.py lines 97-99: proportional allocation of an
aggregate charge across an hourly remaining-consumption series. -/
def battery_used (remaining : Fin 24 → ℚ) (charge : ℚ) : Fin 24 → ℚ :=
  fun h => remaining h / (∑ i, remaining i) * charge

/-- app.py lines 64-68: when the sum of remaining consumption and the charge
are both positive the allocation runs and the result is clamped at zero by
clip(lower=0); otherwise the grid draw is the remaining consumption. -/
def grid_consumption_with_battery (consumption pv_generation : Fin 24 → ℚ)
    (efficiency battery_kwh : ℚ) : Fin 24 → ℚ :=
  let remaining := remaining_consumption consumption pv_generation
  let charge := battery_charge_from_pv consumption pv_generation efficiency battery_kwh
  fun h =>
    if 0 < ∑ i, remaining i ∧ 0 < charge then
      max (remaining h - battery_used remaining charge h) 0
    else remaining h

/-- main.py lines 96-102: same branch guard, but the battery-adjusted grid
draw is remaining - battery_used with no clamp. -/
def grid_consumption_main (consumption pv_generation : Fin 24 → ℚ)
    (battery_kwh : ℚ) : Fin 24 → ℚ :=
  let remaining := remaining_consumption consumption pv_generation
  let charge := battery_charge_from_pv_main consumption pv_generation battery_kwh
  fun h =>
    if 0 < ∑ i, remaining i ∧ 0 < charge then
      remaining h - battery_used remaining charge h
    else remaining h

/-- app.py line 71: (price_pln_mwh / 1000) + distribution_cost, per hour. -/
def price_kwh (prices : Fin 24 → ℚ) (distribution_cost : ℚ) : Fin 24 → ℚ :=
  fun h => prices h / 1000 + distribution_cost

/-- app.py lines 73-74: (energy * price_kwh).sum(), with no rounding. -/
def grid_cost (energy prices : Fin 24 → ℚ) (distribution_cost : ℚ) : ℚ :=
  ∑ h, energy h * price_kwh prices distribution_cost h

/-- An hour-labelled series: the association list of (hour index, value)
pairs of a pandas Series whose index is 0..23. -/
def hourly (f : Fin 24 → ℚ) : List (ℕ × ℚ) :=
  (List.finRange 24).map fun h => (h.1, f h)

/-- src/src/analytics.py lines 118-129: price_kwh = price/1000 + dist, then
cost = (price_kwh * consumption).sum() rounded to two decimals. The pandas
product column is aligned on the price frame's hour index; an hour missing
from the consumption index yields NaN there, which .sum() skips — modelled
as a zero contribution. -/
def simulate_without_battery (prices cons : List (ℕ × ℚ))
    (distribution_cost_kwh : ℚ) : ℚ :=
  round2 ((prices.map fun pr =>
    match cons.find? (fun cv => cv.1 == pr.1) with
    | some cv => (pr.2 / 1000 + distribution_cost_kwh) * cv.2
    | none => 0).sum)

/-- The first three hours of the day ranked by a price comparison, embedding
the pandas nsmallest / nlargest index selection: a stable sort of the
(hour, price) pairs followed by take 3, so that among equal prices the
earlier hour wins, as with keep=first. -/
def rankedHours (cmp : ℚ → ℚ → Prop) [DecidableRel cmp] (prices : Fin 24 → ℚ) :
    List (Fin 24) :=
  ((((List.finRange 24).map fun h => (h, prices h)).mergeSort
    fun a b => decide (cmp a.2 b.2)).take 3).map Prod.fst

/-- src/src/analytics.py line 100: prices.nsmallest(3).index. -/
def cheap_hours (prices : Fin 24 → ℚ) : List (Fin 24) :=
  rankedHours (fun a b => a ≤ b) prices

/-- src/src/analytics.py line 101: prices.nlargest(3).index. -/
def expensive_hours (prices : Fin 24 → ℚ) : List (Fin 24) :=
  rankedHours (fun a b => b ≤ a) prices

/-- src/src/analytics.py lines 90-115: charge battery_kwh/3 at each of the
3 cheapest hours paying the full effective price, discharge the same at each
of the 3 most expensive hours crediting price * efficiency. The
consumption_series parameter is accepted but never read by the body. -/
def simulate_with_battery (prices consumption_series : Fin 24 → ℚ)
    (battery_kwh efficiency distribution_cost_kwh : ℚ) : ℚ :=
  let energy_per_hour := battery_kwh / 3
  let charged := (cheap_hours prices).foldl
    (fun profit h => profit - energy_per_hour * (prices h / 1000 + distribution_cost_kwh)) 0
  (expensive_hours prices).foldl
    (fun profit h =>
      profit + energy_per_hour * (prices h / 1000 + distribution_cost_kwh) * efficiency)
    charged

/-- src/src/analytics.py lines 166-168: round(daily_profit * 30 * months, 2),
with no validation of months_delay. -/
def compute_waiting_cost (daily_profit_pln : ℚ) (months_delay : ℤ) : ℚ :=
  round2 (daily_profit_pln * 30 * months_delay)

/-! Helper lemmas. -/

lemma round2_eq_self {q : ℚ} {n : ℤ} (h : q * 100 = n) : round2 q = q := by
  have hq : q = (n : ℚ) / 100 := by
    rw [← h]; ring
  simp only [round2, h, Int.floor_intCast, sub_self]
  norm_num [hq]

lemma round2_zero : round2 0 = 0 :=
  round2_eq_self (n := 0) (by norm_num)

lemma round2_small {q : ℚ} (h0 : 0 ≤ q * 100) (h1 : q * 100 < 1 / 2) : round2 q = 0 := by
  have hf : ⌊q * 100⌋ = 0 := Int.floor_eq_zero_iff.mpr ⟨h0, by linarith⟩
  simp only [round2, hf, Int.cast_zero, sub_zero, if_pos h1]
  norm_num

lemma abs_round2_sub_le (q : ℚ) : |round2 q - q| ≤ 1 / 200 := by
  have h0 : (⌊q * 100⌋ : ℚ) ≤ q * 100 := Int.floor_le _
  have h1 : q * 100 < ⌊q * 100⌋ + 1 := Int.lt_floor_add_one _
  simp only [round2]
  split_ifs with ha hb hc <;>
    (rw [abs_le]; constructor <;> push_cast <;> push_cast at ha <;> nlinarith)

lemma foldl_sub (l : List (Fin 24)) (f : Fin 24 → ℚ) (a : ℚ) :
    l.foldl (fun acc h => acc - f h) a = a - (l.map f).sum := by
  induction l generalizing a with
  | nil => simp
  | cons x xs ih => simp [ih]; ring

lemma foldl_add (l : List (Fin 24)) (f : Fin 24 → ℚ) (a : ℚ) :
    l.foldl (fun acc h => acc + f h) a = a + (l.map f).sum := by
  induction l generalizing a with
  | nil => simp
  | cons x xs ih => simp [ih]; ring

lemma take_sorted_le (le : Fin 24 × ℚ → Fin 24 × ℚ → Bool)
    (htrans : ∀ a b c, le a b = true → le b c = true → le a c = true)
    (htotal : ∀ a b, (le a b || le b a) = true)
    (l : List (Fin 24 × ℚ)) (n : ℕ) :
    ∀ x ∈ (l.mergeSort le).take n, ∀ y ∈ (l.mergeSort le).drop n, le x y = true := by
  have hsorted := List.sorted_mergeSort htrans htotal l
  rw [← List.take_append_drop n (l.mergeSort le)] at hsorted
  exact (List.pairwise_append.mp hsorted).2.2

lemma rankedHours_length (cmp : ℚ → ℚ → Prop) [DecidableRel cmp] (p : Fin 24 → ℚ) :
    (rankedHours cmp p).length = 3 := by
  unfold rankedHours
  rw [List.length_map, List.length_take,
    (List.mergeSort_perm _ _).length_eq, List.length_map, List.length_finRange]
  decide

lemma rankedHours_spec (cmp : ℚ → ℚ → Prop) [DecidableRel cmp]
    (htrans : ∀ a b c, cmp a b → cmp b c → cmp a c)
    (htotal : ∀ a b, cmp a b ∨ cmp b a) (p : Fin 24 → ℚ) :
    ∀ c ∈ rankedHours cmp p, ∀ h : Fin 24, h ∉ rankedHours cmp p → cmp (p c) (p h) := by
  unfold rankedHours
  intro c hc h hh
  have htrans' : ∀ a b c : Fin 24 × ℚ, decide (cmp a.2 b.2) = true →
      decide (cmp b.2 c.2) = true → decide (cmp a.2 c.2) = true := by
    intro a b x hab hbx
    simp only [decide_eq_true_eq] at hab hbx ⊢
    exact htrans _ _ _ hab hbx
  have htotal' : ∀ a b : Fin 24 × ℚ,
      (decide (cmp a.2 b.2) || decide (cmp b.2 a.2)) = true := by
    intro a b
    rcases htotal a.2 b.2 with hab | hba
    · simp [hab]
    · simp [hba]
  have hcross := take_sorted_le (fun a b => decide (cmp a.2 b.2)) htrans' htotal'
    ((List.finRange 24).map fun x => (x, p x)) 3
  obtain ⟨pc, hpcmem, hpcfst⟩ := List.mem_map.mp hc
  have hperm := List.mergeSort_perm ((List.finRange 24).map fun x => (x, p x))
    (fun a b => decide (cmp a.2 b.2))
  have hpc_in : pc ∈ ((List.finRange 24).map fun x => (x, p x)).mergeSort
      (fun a b => decide (cmp a.2 b.2)) := (List.take_sublist 3 _).subset hpcmem
  have hpc2 : pc.2 = p c := by
    obtain ⟨y, -, hy⟩ := List.mem_map.mp (hperm.mem_iff.mp hpc_in)
    rw [← hy] at hpcfst ⊢
    exact congrArg p hpcfst
  have hhp : (h, p h) ∈ ((List.finRange 24).map fun x => (x, p x)).mergeSort
      (fun a b => decide (cmp a.2 b.2)) :=
    hperm.mem_iff.mpr (List.mem_map.mpr ⟨h, List.mem_finRange h, rfl⟩)
  have hhdrop : (h, p h) ∈ (((List.finRange 24).map fun x => (x, p x)).mergeSort
      (fun a b => decide (cmp a.2 b.2))).drop 3 := by
    rcases List.mem_append.mp
      (by rw [List.take_append_drop]; exact hhp :
        (h, p h) ∈ (((List.finRange 24).map fun x => (x, p x)).mergeSort
          (fun a b => decide (cmp a.2 b.2))).take 3 ++
          (((List.finRange 24).map fun x => (x, p x)).mergeSort
            (fun a b => decide (cmp a.2 b.2))).drop 3) with htk | hdr
    · exact absurd (List.mem_map.mpr ⟨(h, p h), htk, rfl⟩) hh
    · exact hdr
  have hfin := hcross pc hpcmem (h, p h) hhdrop
  simp only [decide_eq_true_eq] at hfin
  rw [hpc2] at hfin
  exact hfin

lemma simulate_hourly_eq (p e : Fin 24 → ℚ) (d : ℚ) :
    simulate_without_battery (hourly p) (hourly e) d
      = round2 (∑ h, (p h / 1000 + d) * e h) := by
  rfl

/-- C2: at every hour selfConsumed is the pointwise minimum of consumption and
PV generation, remainingConsumption + selfConsumed = consumption and
pvExcess + selfConsumed = pvGeneration, and both remainders are
non-negative. -/
theorem energy_balance_conservation (c pv : Fin 24 → ℚ)
    (hc : ∀ h2, 0 ≤ c h2) (hpv : ∀ h2, 0 ≤ pv h2) (h : Fin 24) :
    self_consumed c pv h = min (c h) (pv h)
      ∧ remaining_consumption c pv h + self_consumed c pv h = c h
      ∧ pv_excess c pv h + self_consumed c pv h = pv h
      ∧ 0 ≤ remaining_consumption c pv h
      ∧ 0 ≤ pv_excess c pv h := by
  refine ⟨rfl, ?_, ?_, ?_, ?_⟩
  · show c h - self_consumed c pv h + self_consumed c pv h = c h
    ring
  · show pv h - self_consumed c pv h + self_consumed c pv h = pv h
    ring
  · show 0 ≤ c h - min (c h) (pv h)
    have := min_le_left (c h) (pv h)
    linarith
  · show 0 ≤ pv h - min (c h) (pv h)
    have := min_le_right (c h) (pv h)
    linarith

/-- Witness for C2 at consumption 2 kWh/h, generation 1 kWh/h, hour 0. -/
theorem energy_balance_conservation_witness :
    ((∀ h2 : Fin 24, (0:ℚ) ≤ 2) ∧ (∀ h2 : Fin 24, (0:ℚ) ≤ 1))
      ∧ (self_consumed (fun _ => 2) (fun _ => 1) 0 = min 2 1
        ∧ remaining_consumption (fun _ => 2) (fun _ => 1) 0
            + self_consumed (fun _ => 2) (fun _ => 1) 0 = 2
        ∧ pv_excess (fun _ => 2) (fun _ => 1) 0
            + self_consumed (fun _ => 2) (fun _ => 1) 0 = 1
        ∧ 0 ≤ remaining_consumption (fun _ => 2) (fun _ => 1) 0
        ∧ 0 ≤ pv_excess (fun _ => 2) (fun _ => 1) 0) :=
  ⟨⟨fun _ => by norm_num, fun _ => by norm_num⟩,
    energy_balance_conservation (fun _ => 2) (fun _ => 1)
      (fun _ => by norm_num) (fun _ => by norm_num) 0⟩

/-- C1 (amended): the app.py charge equals
min(sum(max(pv - consumption, 0)) * efficiency, capacity), with the
efficiency derate applied exactly once, at the charging step; the
src/main.py variant applies no efficiency derate at all: its charge is
min(sum(max(pv - consumption, 0)), capacity). -/
theorem battery_charge_formulas (c pv : Fin 24 → ℚ) (efficiency battery_kwh : ℚ)
    (hc : ∀ h2, 0 ≤ c h2) (hpv : ∀ h2, 0 ≤ pv h2)
    (heff0 : 0 < efficiency) (heff1 : efficiency ≤ 1) (hcap : 0 < battery_kwh) :
    battery_charge_from_pv c pv efficiency battery_kwh
        = min ((∑ h, max (pv h - c h) 0) * efficiency) battery_kwh
      ∧ battery_charge_from_pv_main c pv battery_kwh
        = min (∑ h, max (pv h - c h) 0) battery_kwh := by
  have hex : ∀ h, pv_excess c pv h = max (pv h - c h) 0 := by
    intro h
    show pv h - min (c h) (pv h) = max (pv h - c h) 0
    rcases le_total (c h) (pv h) with hle | hle
    · rw [min_eq_left hle, max_eq_left (by linarith)]
    · rw [min_eq_right hle, sub_self, max_eq_right (by linarith)]
  have hsum : (∑ h, pv_excess c pv h) = ∑ h, max (pv h - c h) 0 :=
    Finset.sum_congr rfl fun h _ => hex h
  constructor
  · show min ((∑ h, pv_excess c pv h) * efficiency) battery_kwh = _
    rw [hsum]
  · show min (∑ h, pv_excess c pv h) battery_kwh = _
    rw [hsum]

/-- Witness for C1 at zero consumption, 1 kWh/h generation, efficiency 0.9,
capacity 100. -/
theorem battery_charge_formulas_witness :
    ((0:ℚ) < 9/10 ∧ (9/10:ℚ) ≤ 1 ∧ (0:ℚ) < 100)
      ∧ (battery_charge_from_pv (fun _ => 0) (fun _ => 1) (9/10) 100
          = min ((∑ _h : Fin 24, max ((1:ℚ) - 0) 0) * (9/10)) 100
        ∧ battery_charge_from_pv_main (fun _ => 0) (fun _ => 1) 100
          = min (∑ _h : Fin 24, max ((1:ℚ) - 0) 0) 100) :=
  ⟨⟨by norm_num, by norm_num, by norm_num⟩,
    battery_charge_formulas (fun _ => 0) (fun _ => 1) (9/10) 100
      (fun _ => le_refl 0) (fun _ => by norm_num) (by norm_num) (by norm_num)
      (by norm_num)⟩

/-- Counterexample for C1 as stated: with 10 kWh of PV excess concentrated in
hour 0, efficiency 0.9 and capacity 100, the src/main.py charge is
min(10, 100) = 10, not min(10 * 0.9, 100) = 9. -/
theorem battery_charge_counterexample :
    battery_charge_from_pv_main (fun _ => 0) (fun h2 => if h2.1 = 0 then 10 else 0) 100
      ≠ min ((∑ h, pv_excess (fun _ => (0:ℚ)) (fun h2 => if h2.1 = 0 then (10:ℚ) else 0) h)
          * (9/10)) 100 := by
  have hex : ∀ h : Fin 24,
      pv_excess (fun _ => (0:ℚ)) (fun h2 => if h2.1 = 0 then (10:ℚ) else 0) h
        = if h.1 = 0 then 10 else 0 := by
    intro h
    show (if h.1 = 0 then (10:ℚ) else 0) - min 0 (if h.1 = 0 then (10:ℚ) else 0) = _
    by_cases h0 : h.1 = 0
    · rw [if_pos h0, min_eq_left (by norm_num)]
      norm_num
    · rw [if_neg h0]
      simp
  have hsum : (∑ h, pv_excess (fun _ => (0:ℚ))
      (fun h2 => if h2.1 = 0 then (10:ℚ) else 0) h) = 10 := by
    rw [Finset.sum_congr rfl fun h _ => hex h]
    simp [Fin.sum_univ_succ]
  show min (∑ h, pv_excess (fun _ => (0:ℚ))
      (fun h2 => if h2.1 = 0 then (10:ℚ) else 0) h) 100 ≠ _
  rw [hsum, min_eq_left (by norm_num : (10:ℚ) ≤ 100),
    min_eq_left (by norm_num : (10:ℚ) * (9/10) ≤ 100)]
  norm_num

/-- C3: under the dispatch guard, each hour receives
remaining[h] / sum(remaining) * chargeAvailable, the allocations sum to
exactly chargeAvailable, and so never exceed it. -/
theorem dispatch_allocation (remaining : Fin 24 → ℚ) (charge : ℚ)
    (hr : ∀ h2, 0 ≤ remaining h2) (hS : 0 < ∑ i, remaining i) (hC : 0 < charge) :
    (∀ h, battery_used remaining charge h
        = remaining h / (∑ i, remaining i) * charge)
      ∧ (∑ h, battery_used remaining charge h) = charge
      ∧ (∑ h, battery_used remaining charge h) ≤ charge := by
  have hsum : (∑ h, battery_used remaining charge h) = charge := by
    unfold battery_used
    rw [← Finset.sum_mul, ← Finset.sum_div, div_self (ne_of_gt hS), one_mul]
  exact ⟨fun h => rfl, hsum, le_of_eq hsum⟩

/-- Witness for C3 at uniform remaining consumption 1 kWh/h and 12 kWh of
charge. -/
theorem dispatch_allocation_witness :
    ((∀ h2 : Fin 24, (0:ℚ) ≤ 1) ∧ (0:ℚ) < (∑ _i : Fin 24, (1:ℚ)) ∧ (0:ℚ) < 12)
      ∧ (∑ h, battery_used (fun _ => 1) 12 h) = 12 :=
  ⟨⟨fun _ => by norm_num, by simp, by norm_num⟩,
    (dispatch_allocation (fun _ => 1) 12 (fun _ => by norm_num) (by simp)
      (by norm_num)).2.1⟩

/-- C7: with all-zero PV generation the battery never engages: selfConsumed
and pvExcess are zero, and both the app.py and main.py grid draws equal the
original consumption at every hour. -/
theorem no_pv_baseline (c : Fin 24 → ℚ) (efficiency battery_kwh : ℚ)
    (hc : ∀ h2, 0 ≤ c h2) (h : Fin 24) :
    self_consumed c (fun _ => 0) h = 0
      ∧ pv_excess c (fun _ => 0) h = 0
      ∧ remaining_consumption c (fun _ => 0) h = c h
      ∧ grid_consumption_with_battery c (fun _ => 0) efficiency battery_kwh h = c h
      ∧ grid_consumption_main c (fun _ => 0) battery_kwh h = c h := by
  have hself : ∀ h2 : Fin 24, self_consumed c (fun _ => 0) h2 = 0 := fun h2 =>
    min_eq_right (hc h2)
  have hrem : ∀ h2 : Fin 24, remaining_consumption c (fun _ => 0) h2 = c h2 := by
    intro h2
    show c h2 - self_consumed c (fun _ => 0) h2 = c h2
    rw [hself h2, sub_zero]
  have hexc : (∑ h2, pv_excess c (fun _ => 0) h2) = 0 := by
    have hz : ∀ h2 : Fin 24, pv_excess c (fun _ => 0) h2 = 0 := by
      intro h2
      show (0:ℚ) - self_consumed c (fun _ => 0) h2 = 0
      rw [hself h2, sub_zero]
    rw [Finset.sum_congr rfl fun h2 _ => hz h2, Finset.sum_const_zero]
  refine ⟨hself h, ?_, hrem h, ?_, ?_⟩
  · show (0:ℚ) - self_consumed c (fun _ => 0) h = 0
    rw [hself h, sub_zero]
  · show (if 0 < (∑ i, remaining_consumption c (fun _ => 0) i)
        ∧ 0 < battery_charge_from_pv c (fun _ => 0) efficiency battery_kwh then
        max (remaining_consumption c (fun _ => 0) h
          - battery_used (remaining_consumption c (fun _ => 0))
              (battery_charge_from_pv c (fun _ => 0) efficiency battery_kwh) h) 0
      else remaining_consumption c (fun _ => 0) h) = c h
    rw [if_neg, hrem h]
    rintro ⟨-, hpos⟩
    have hle : battery_charge_from_pv c (fun _ => 0) efficiency battery_kwh ≤ 0 := by
      show min ((∑ h2, pv_excess c (fun _ => 0) h2) * efficiency) battery_kwh ≤ 0
      rw [hexc, zero_mul]
      exact min_le_left 0 battery_kwh
    linarith
  · show (if 0 < (∑ i, remaining_consumption c (fun _ => 0) i)
        ∧ 0 < battery_charge_from_pv_main c (fun _ => 0) battery_kwh then
        remaining_consumption c (fun _ => 0) h
          - battery_used (remaining_consumption c (fun _ => 0))
              (battery_charge_from_pv_main c (fun _ => 0) battery_kwh) h
      else remaining_consumption c (fun _ => 0) h) = c h
    rw [if_neg, hrem h]
    rintro ⟨-, hpos⟩
    have hle : battery_charge_from_pv_main c (fun _ => 0) battery_kwh ≤ 0 := by
      show min (∑ h2, pv_excess c (fun _ => 0) h2) battery_kwh ≤ 0
      rw [hexc]
      exact min_le_left 0 battery_kwh
    linarith

/-- Witness for C7 at uniform consumption 1 kWh/h, efficiency 0.9,
capacity 10, hour 0. -/
theorem no_pv_baseline_witness :
    (∀ h2 : Fin 24, (0:ℚ) ≤ 1)
      ∧ (self_consumed (fun _ => 1) (fun _ => 0) 0 = 0
        ∧ pv_excess (fun _ => 1) (fun _ => 0) 0 = 0
        ∧ remaining_consumption (fun _ => 1) (fun _ => 0) 0 = 1
        ∧ grid_consumption_with_battery (fun _ => 1) (fun _ => 0) (9/10) 10 0 = 1
        ∧ grid_consumption_main (fun _ => 1) (fun _ => 0) 10 0 = 1) :=
  ⟨fun _ => by norm_num,
    no_pv_baseline (fun _ => 1) (9/10) 10 (fun _ => by norm_num) 0⟩

lemma simulate_with_battery_eq (p cons : Fin 24 → ℚ) (cap eff d : ℚ) :
    simulate_with_battery p cons cap eff d =
      ((expensive_hours p).map fun h => cap / 3 * (p h / 1000 + d) * eff).sum
        - ((cheap_hours p).map fun h => cap / 3 * (p h / 1000 + d)).sum := by
  simp only [simulate_with_battery]
  rw [foldl_sub (cheap_hours p) (fun h => cap / 3 * (p h / 1000 + d)) 0,
    foldl_add (expensive_hours p) (fun h => cap / 3 * (p h / 1000 + d) * eff) _,
    zero_sub, neg_add_eq_sub]

/-- C4 (amended): the app.py battery-adjusted grid draw is never negative,
and under the dispatch guard it equals max(remaining - batteryUsed, 0); the
src/main.py variant omits the clamp and can go negative (see the
counterexample). -/
theorem grid_clamp_nonneg (c pv : Fin 24 → ℚ) (efficiency battery_kwh : ℚ)
    (hc : ∀ h2, 0 ≤ c h2) (hpv : ∀ h2, 0 ≤ pv h2) :
    (∀ h, 0 ≤ grid_consumption_with_battery c pv efficiency battery_kwh h)
      ∧ ((0 < (∑ i, remaining_consumption c pv i)
            ∧ 0 < battery_charge_from_pv c pv efficiency battery_kwh) →
          ∀ h, grid_consumption_with_battery c pv efficiency battery_kwh h
            = max (remaining_consumption c pv h
                - battery_used (remaining_consumption c pv)
                    (battery_charge_from_pv c pv efficiency battery_kwh) h) 0) := by
  constructor
  · intro h
    show 0 ≤ if 0 < (∑ i, remaining_consumption c pv i)
        ∧ 0 < battery_charge_from_pv c pv efficiency battery_kwh then
        max (remaining_consumption c pv h
          - battery_used (remaining_consumption c pv)
              (battery_charge_from_pv c pv efficiency battery_kwh) h) 0
      else remaining_consumption c pv h
    split_ifs with hcond
    · exact le_max_right _ _
    · show 0 ≤ c h - min (c h) (pv h)
      have := min_le_left (c h) (pv h)
      linarith
  · intro hcond h
    show (if 0 < (∑ i, remaining_consumption c pv i)
        ∧ 0 < battery_charge_from_pv c pv efficiency battery_kwh then
        max (remaining_consumption c pv h
          - battery_used (remaining_consumption c pv)
              (battery_charge_from_pv c pv efficiency battery_kwh) h) 0
      else remaining_consumption c pv h) = _
    rw [if_pos hcond]

/-- Witness for C4 at uniform consumption 1 kWh/h, zero PV, efficiency 0.9,
capacity 10. -/
theorem grid_clamp_nonneg_witness :
    ((∀ h2 : Fin 24, (0:ℚ) ≤ 1) ∧ (∀ h2 : Fin 24, (0:ℚ) ≤ 0))
      ∧ ((∀ h, 0 ≤ grid_consumption_with_battery (fun _ => 1) (fun _ => 0) (9/10) 10 h)
        ∧ ((0 < (∑ i, remaining_consumption (fun _ => (1:ℚ)) (fun _ => (0:ℚ)) i)
              ∧ 0 < battery_charge_from_pv (fun _ => (1:ℚ)) (fun _ => (0:ℚ)) (9/10) 10) →
            ∀ h, grid_consumption_with_battery (fun _ => 1) (fun _ => 0) (9/10) 10 h
              = max (remaining_consumption (fun _ => (1:ℚ)) (fun _ => (0:ℚ)) h
                  - battery_used (remaining_consumption (fun _ => (1:ℚ)) (fun _ => (0:ℚ)))
                      (battery_charge_from_pv (fun _ => (1:ℚ)) (fun _ => (0:ℚ)) (9/10) 10) h) 0)) :=
  ⟨⟨fun _ => by norm_num, fun _ => le_refl 0⟩,
    grid_clamp_nonneg (fun _ => 1) (fun _ => 0) (9/10) 10
      (fun _ => by norm_num) (fun _ => le_refl 0)⟩

/-- Counterexample for C4 as stated: in src/main.py, with 1 kWh of remaining
consumption at hour 0, 10 kWh of PV excess at hour 5 and a 5 kWh battery,
the unclamped grid draw at hour 0 is 1 - 5 = -4: negative, hence not equal
to max(remaining - batteryUsed, 0). -/
theorem grid_clamp_counterexample :
    grid_consumption_main (fun h2 => if h2.1 = 0 then 1 else 0)
        (fun h2 => if h2.1 = 5 then 10 else 0) 5 0 = -4
      ∧ grid_consumption_main (fun h2 => if h2.1 = 0 then 1 else 0)
          (fun h2 => if h2.1 = 5 then 10 else 0) 5 0 < 0 := by
  have hrem : ∀ h : Fin 24,
      remaining_consumption (fun h2 : Fin 24 => if h2.1 = 0 then (1:ℚ) else 0)
        (fun h2 => if h2.1 = 5 then (10:ℚ) else 0) h
      = if h.1 = 0 then 1 else 0 := by
    intro h
    show (if h.1 = 0 then (1:ℚ) else 0)
        - min (if h.1 = 0 then (1:ℚ) else 0) (if h.1 = 5 then (10:ℚ) else 0) = _
    by_cases h0 : h.1 = 0
    · have h5 : ¬ h.1 = 5 := by omega
      rw [if_pos h0, if_neg h5, min_eq_right (by norm_num)]
      norm_num
    · rw [if_neg h0]
      by_cases h5 : h.1 = 5
      · rw [if_pos h5, min_eq_left (by norm_num)]
        norm_num
      · rw [if_neg h5]
        simp
  have hremS : (∑ i, remaining_consumption (fun h2 : Fin 24 => if h2.1 = 0 then (1:ℚ) else 0)
      (fun h2 => if h2.1 = 5 then (10:ℚ) else 0) i) = 1 := by
    rw [Finset.sum_congr rfl fun i _ => hrem i]
    simp [Fin.sum_univ_succ]
    decide
  have hexc : ∀ h : Fin 24,
      pv_excess (fun h2 : Fin 24 => if h2.1 = 0 then (1:ℚ) else 0)
        (fun h2 => if h2.1 = 5 then (10:ℚ) else 0) h
      = if h.1 = 5 then 10 else 0 := by
    intro h
    show (if h.1 = 5 then (10:ℚ) else 0)
        - min (if h.1 = 0 then (1:ℚ) else 0) (if h.1 = 5 then (10:ℚ) else 0) = _
    by_cases h5 : h.1 = 5
    · have h0 : ¬ h.1 = 0 := by omega
      rw [if_pos h5, if_neg h0, min_eq_left (by norm_num)]
      norm_num
    · rw [if_neg h5]
      by_cases h0 : h.1 = 0
      · rw [if_pos h0, min_eq_right (by norm_num)]
        norm_num
      · rw [if_neg h0]
        simp
  have hexcS : (∑ h, pv_excess (fun h2 : Fin 24 => if h2.1 = 0 then (1:ℚ) else 0)
      (fun h2 => if h2.1 = 5 then (10:ℚ) else 0) h) = 10 := by
    rw [Finset.sum_congr rfl fun h _ => hexc h]
    simp [Fin.sum_univ_succ]
  have hcharge : battery_charge_from_pv_main (fun h2 : Fin 24 => if h2.1 = 0 then (1:ℚ) else 0)
      (fun h2 => if h2.1 = 5 then (10:ℚ) else 0) 5 = 5 := by
    show min (∑ h, pv_excess (fun h2 : Fin 24 => if h2.1 = 0 then (1:ℚ) else 0)
      (fun h2 => if h2.1 = 5 then (10:ℚ) else 0) h) 5 = 5
    rw [hexcS]
    exact min_eq_right (by norm_num)
  have hmain : grid_consumption_main (fun h2 : Fin 24 => if h2.1 = 0 then (1:ℚ) else 0)
      (fun h2 => if h2.1 = 5 then (10:ℚ) else 0) 5 0 = -4 := by
    show (if 0 < (∑ i, remaining_consumption (fun h2 : Fin 24 => if h2.1 = 0 then (1:ℚ) else 0)
          (fun h2 => if h2.1 = 5 then (10:ℚ) else 0) i)
        ∧ 0 < battery_charge_from_pv_main (fun h2 : Fin 24 => if h2.1 = 0 then (1:ℚ) else 0)
            (fun h2 => if h2.1 = 5 then (10:ℚ) else 0) 5 then
        remaining_consumption (fun h2 : Fin 24 => if h2.1 = 0 then (1:ℚ) else 0)
            (fun h2 => if h2.1 = 5 then (10:ℚ) else 0) 0
          - battery_used (remaining_consumption (fun h2 : Fin 24 => if h2.1 = 0 then (1:ℚ) else 0)
                (fun h2 => if h2.1 = 5 then (10:ℚ) else 0))
              (battery_charge_from_pv_main (fun h2 : Fin 24 => if h2.1 = 0 then (1:ℚ) else 0)
                (fun h2 => if h2.1 = 5 then (10:ℚ) else 0) 5) 0
      else remaining_consumption (fun h2 : Fin 24 => if h2.1 = 0 then (1:ℚ) else 0)
          (fun h2 => if h2.1 = 5 then (10:ℚ) else 0) 0) = -4
    rw [if_pos ⟨by rw [hremS]; norm_num, by rw [hcharge]; norm_num⟩]
    show remaining_consumption (fun h2 : Fin 24 => if h2.1 = 0 then (1:ℚ) else 0)
          (fun h2 => if h2.1 = 5 then (10:ℚ) else 0) 0
        - remaining_consumption (fun h2 : Fin 24 => if h2.1 = 0 then (1:ℚ) else 0)
            (fun h2 => if h2.1 = 5 then (10:ℚ) else 0) 0
          / (∑ i, remaining_consumption (fun h2 : Fin 24 => if h2.1 = 0 then (1:ℚ) else 0)
              (fun h2 => if h2.1 = 5 then (10:ℚ) else 0) i)
          * battery_charge_from_pv_main (fun h2 : Fin 24 => if h2.1 = 0 then (1:ℚ) else 0)
              (fun h2 => if h2.1 = 5 then (10:ℚ) else 0) 5 = -4
    rw [hremS, hcharge, hrem 0]
    simp
    norm_num
  exact ⟨hmain, by rw [hmain]; norm_num⟩

/-- C5 (amended): the src/analytics.py cost evaluator returns the effective-
price sum rounded to two decimals, round2(sum(energy*(price/1000+dist))),
while the app.py cost is that exact sum; on the 200 PLN/MWh, 0.45 PLN/kWh,
1 kWh/h scenario both yield 15.6. -/
theorem cost_evaluator_rounds (p e : Fin 24 → ℚ) (d : ℚ)
    (hd : 0 ≤ d) (he : ∀ h2, 0 ≤ e h2) :
    simulate_without_battery (hourly p) (hourly e) d
        = round2 (∑ h, e h * (p h / 1000 + d))
      ∧ grid_cost e p d = ∑ h, e h * (p h / 1000 + d)
      ∧ grid_cost (fun _ => 1) (fun _ => 200) (45/100) = 156/10
      ∧ simulate_without_battery (hourly fun _ => 200) (hourly fun _ => 1) (45/100)
        = 156/10 := by
  refine ⟨?_, rfl, ?_, ?_⟩
  · rw [simulate_hourly_eq]
    congr 1
    exact Finset.sum_congr rfl fun h _ => mul_comm _ _
  · show (∑ _h : Fin 24, (1:ℚ) * ((200:ℚ) / 1000 + 45/100)) = 156/10
    rw [Finset.sum_const, Finset.card_univ, Fintype.card_fin]
    norm_num
  · show round2 (∑ _h : Fin 24, ((200:ℚ) / 1000 + 45/100) * 1) = 156/10
    have hs : (∑ _h : Fin 24, ((200:ℚ) / 1000 + 45/100) * 1) = 156/10 := by
      rw [Finset.sum_const, Finset.card_univ, Fintype.card_fin]
      norm_num
    rw [hs]
    exact round2_eq_self (n := 1560) (by norm_num)

/-- Witness for C5 at the price-evaluation scenario of the spec. -/
theorem cost_evaluator_rounds_witness :
    ((0:ℚ) ≤ 45/100 ∧ ∀ h2 : Fin 24, (0:ℚ) ≤ 1)
      ∧ simulate_without_battery (hourly fun _ => 200) (hourly fun _ => 1) (45/100)
          = round2 (∑ _h : Fin 24, (1:ℚ) * ((200:ℚ) / 1000 + 45/100)) :=
  ⟨⟨by norm_num, fun _ => by norm_num⟩,
    (cost_evaluator_rounds (fun _ => 200) (fun _ => 1) (45/100) (by norm_num)
      (fun _ => by norm_num)).1⟩

/-- Counterexample for C5 as stated: with price 1 PLN/MWh, distribution 0 and
1 kWh in hour 0 only, the exact effective-price sum is 1/1000, but the
evaluator returns round2(1/1000) = 0. -/
theorem cost_evaluator_counterexample :
    simulate_without_battery (hourly fun _ => 1)
        (hourly fun h2 => if h2.1 = 0 then 1 else 0) 0
      ≠ ∑ h : Fin 24, (if h.1 = 0 then (1:ℚ) else 0) * ((1:ℚ) / 1000 + 0) := by
  show round2 (∑ h : Fin 24, ((1:ℚ) / 1000 + 0) * (if h.1 = 0 then (1:ℚ) else 0))
      ≠ ∑ h : Fin 24, (if h.1 = 0 then (1:ℚ) else 0) * ((1:ℚ) / 1000 + 0)
  have h1 : (∑ h : Fin 24, ((1:ℚ) / 1000 + 0) * (if h.1 = 0 then (1:ℚ) else 0))
      = 1/1000 := by
    simp [Fin.sum_univ_succ]
  have h2 : (∑ h : Fin 24, (if h.1 = 0 then (1:ℚ) else 0) * ((1:ℚ) / 1000 + 0))
      = 1/1000 := by
    simp [Fin.sum_univ_succ]
  rw [h1, h2, round2_small (by norm_num) (by norm_num)]
  norm_num

/-- C6: the price-arbitrage profit is the sum over the 3 most expensive hours
of (capacity/3) * effectivePrice * efficiency minus the sum over the 3
cheapest hours of (capacity/3) * effectivePrice — efficiency only on the
discharge leg — and every selected cheap hour's price is a minimum (resp.
every selected expensive hour's price a maximum) over the unselected
hours. -/
theorem arbitrage_profit (p consumption_series : Fin 24 → ℚ)
    (battery_kwh efficiency distribution_cost_kwh : ℚ) :
    simulate_with_battery p consumption_series battery_kwh efficiency
        distribution_cost_kwh
        = ((expensive_hours p).map fun h =>
            battery_kwh / 3 * (p h / 1000 + distribution_cost_kwh) * efficiency).sum
          - ((cheap_hours p).map fun h =>
              battery_kwh / 3 * (p h / 1000 + distribution_cost_kwh)).sum
      ∧ (cheap_hours p).length = 3
      ∧ (expensive_hours p).length = 3
      ∧ (∀ c ∈ cheap_hours p, ∀ h : Fin 24, h ∉ cheap_hours p → p c ≤ p h)
      ∧ (∀ x ∈ expensive_hours p, ∀ h : Fin 24, h ∉ expensive_hours p → p h ≤ p x) := by
  refine ⟨simulate_with_battery_eq p consumption_series battery_kwh efficiency
      distribution_cost_kwh,
    rankedHours_length _ p, rankedHours_length _ p, ?_, ?_⟩
  · exact rankedHours_spec (fun a b => a ≤ b)
      (fun a b x hab hbx => le_trans hab hbx) (fun a b => le_total a b) p
  · intro x hx h hh
    exact rankedHours_spec (fun a b => b ≤ a)
      (fun a b x2 hab hbx => le_trans hbx hab) (fun a b => le_total b a) p x hx h hh

/-- C8 (amended): the waiting-cost projector returns
round2(dailyProfit * 30 * monthsDelay) for every integer monthsDelay —
negative included, with no validation — always within 1/200 of the exact
product; it returns 1800 at (10, 6) and -1800 at (10, -6). -/
theorem waiting_cost_linear (d : ℚ) (m : ℤ) :
    compute_waiting_cost d m = round2 (d * 30 * m)
      ∧ |compute_waiting_cost d m - d * 30 * m| ≤ 1 / 200
      ∧ compute_waiting_cost 10 6 = 1800
      ∧ compute_waiting_cost 10 (-6) = -1800 := by
  refine ⟨rfl, abs_round2_sub_le _, ?_, ?_⟩
  · show round2 ((10:ℚ) * 30 * ((6:ℤ) : ℚ)) = 1800
    have h : (10:ℚ) * 30 * ((6:ℤ) : ℚ) = 1800 := by
      push_cast
      norm_num
    rw [h]
    exact round2_eq_self (n := 180000) (by norm_num)
  · show round2 ((10:ℚ) * 30 * ((-6:ℤ) : ℚ)) = -1800
    have h : (10:ℚ) * 30 * ((-6:ℤ) : ℚ) = -1800 := by
      push_cast
      norm_num
    rw [h]
    exact round2_eq_self (n := -180000) (by norm_num)

/-- Counterexample for C8 as stated: at dailyProfit = 1/10000 and
monthsDelay = 1 the code returns 0, not the exact product 3/1000; and at
monthsDelay = -6 it returns -1800 instead of failing with InvalidArgument. -/
theorem waiting_cost_counterexample :
    compute_waiting_cost (1/10000) 1 = 0
      ∧ compute_waiting_cost (1/10000) 1 ≠ (1/10000 : ℚ) * 30 * ((1:ℤ) : ℚ)
      ∧ compute_waiting_cost 10 (-6) = -1800 := by
  have h0 : compute_waiting_cost (1/10000) 1 = 0 := by
    show round2 ((1/10000 : ℚ) * 30 * ((1:ℤ) : ℚ)) = 0
    have h : (1/10000 : ℚ) * 30 * ((1:ℤ) : ℚ) = 3/1000 := by
      push_cast
      norm_num
    rw [h]
    exact round2_small (by norm_num) (by norm_num)
  refine ⟨h0, ?_, ?_⟩
  · rw [h0]
    push_cast
    norm_num
  · show round2 ((10:ℚ) * 30 * ((-6:ℤ) : ℚ)) = -1800
    have h : (10:ℚ) * 30 * ((-6:ℤ) : ℚ) = -1800 := by
      push_cast
      norm_num
    rw [h]
    exact round2_eq_self (n := -180000) (by norm_num)

/-- C9 (amended): the cost evaluator performs no validation and never fails:
with an empty price frame it returns 0 whatever the consumption series, and
with a one-hour price frame against an empty consumption series (mismatched
lengths) it also returns a number, 0, rather than an error. -/
theorem cost_evaluator_no_validation (cons : List (ℕ × ℚ)) (d : ℚ) :
    simulate_without_battery [] cons d = 0
      ∧ simulate_without_battery [(0, 200)] [] d = 0 := by
  constructor
  · exact round2_zero
  · show round2 ((0:ℚ) + 0) = 0
    rw [add_zero]
    exact round2_zero

/-- Counterexample for C9 as stated: called on two empty series (length 0)
the evaluator returns the value 0 — it does not fail with EmptySeries — and
on series of lengths 1 and 0 it returns 0 rather than ShapeMismatch. -/
theorem cost_evaluator_no_validation_counterexample :
    simulate_without_battery [] [] (45/100) = 0
      ∧ simulate_without_battery [(0, 200)] [] (45/100) = 0 := by
  constructor
  · exact round2_zero
  · show round2 ((0:ℚ) + 0) = 0
    rw [add_zero]
    exact round2_zero

/-- C10: simulate_with_battery never reads its consumption_series parameter,
so any two consumption series give the same arbitrage profit. -/
theorem arbitrage_ignores_consumption (p cons1 cons2 : Fin 24 → ℚ)
    (battery_kwh efficiency distribution_cost_kwh : ℚ) :
    simulate_with_battery p cons1 battery_kwh efficiency distribution_cost_kwh
      = simulate_with_battery p cons2 battery_kwh efficiency distribution_cost_kwh :=
  rfl

end BESS
